import Mathlib

/-!
Verification of the FastNoise2 `SmartNode` shared-ownership handle
(`src/include/FastNoise/SmartNode.h`).

A `SmartNode<T>` is a pair of an allocation identifier (`size_t mReferenceId`)
and a typed pointer (`T* mPtr`).  All reference-count management is forwarded
to a process-wide registry (`SmartNodeManager`), whose implementation is not
part of the header; its operations (`IncReference`, `DecReference`,
`ReferenceCount`, `GetLastAllocID`) are modelled from the specification.

The embedding is value-level: each C++ member function becomes a Lean function
from the handle states it reads to the handle states it writes, paired with the
list of registry calls it issues, in order.  Machine pointers are modelled as
`Option Nat` (`none` is `nullptr`); identifiers are `Nat` with the sentinel
`kInvalidReferenceId = (uint64_t)-1`.  The static C++ type `T` of a handle only
matters for the type-erased destructor captured at `Release`, so it is passed
as an explicit value of a small type grammar `CppType` where needed.
-/

namespace FastNoise

/-- A model of the static C++ types a `SmartNode` can be instantiated at:
the common base `Generator`, derived node classes (distinguished by a tag),
and `const`-qualified versions of these. -/
inductive CppType : Type where
  | Generator : CppType
  | derived : Nat → CppType
  | constOf : CppType → CppType
deriving DecidableEq, Repr

/-- `std::remove_const<T>::type`: strips a top-level `const` qualifier. -/
def remove_const : CppType → CppType
  | .constOf t => t
  | .Generator => .Generator
  | .derived n => .derived n

/-- `SmartNodeManager::kInvalidReferenceId = (uint64_t)-1`. -/
def kInvalidReferenceId : Nat := 18446744073709551615

/-- The type-erased destructor value passed to `DecReference` by
`SmartNode<T>::Release`: the lambda `[]( void* ptr ) { ( (U*)ptr )->~T(); }`
with `U = std::remove_const<T>::type`, applied after `const_cast<U*>( mPtr )`.
`castTo` records the type the pointer is cast to (const removed) and
`dtorOf` the class whose destructor `~T` is invoked. -/
structure DestructorFunc : Type where
  castTo : CppType
  dtorOf : CppType
deriving DecidableEq, Repr

/-- One call into the `SmartNodeManager` registry, as issued by handle code. -/
inductive RegistryOp : Type where
  | IncReference : Nat → RegistryOp
  | DecReference : Nat → Option Nat → DestructorFunc → RegistryOp
  | GetLastAllocID : Option Nat → RegistryOp
deriving DecidableEq, Repr

/-- Modelled from the spec: the registry's per-identifier reference counts,
`identifier ↦ referenceCount` (section 4.1); `counts id = 0` when no live
record exists for `id`. -/
def RegCounts : Type := Nat → Nat

/-- Modelled from the spec (section 4.1): the effect of one registry call on
the reference counts.  `Increment` and `Decrement` are no-ops on the sentinel
identifier and otherwise adjust the count by one; `GetLastAllocID` is a pure
query. -/
def applyOp (c : RegCounts) : RegistryOp → RegCounts
  | .IncReference id =>
      if id = kInvalidReferenceId then c
      else fun i => if i = id then c i + 1 else c i
  | .DecReference id _ _ =>
      if id = kInvalidReferenceId then c
      else fun i => if i = id then c i - 1 else c i
  | .GetLastAllocID _ => c

/-- The cumulative effect of a sequence of registry calls on the counts. -/
def applyTrace (c : RegCounts) (t : List RegistryOp) : RegCounts :=
  t.foldl applyOp c

/-- Modelled from the spec (section 4.1): `ReferenceCount(identifier)` returns
0 for the sentinel, otherwise the current count. -/
def ReferenceCount (c : RegCounts) (id : Nat) : Nat :=
  if id = kInvalidReferenceId then 0 else c id

/-- The state of a `SmartNode` handle: `size_t mReferenceId; T* mPtr;`. -/
structure SmartNode : Type where
  mReferenceId : Nat
  mPtr : Option Nat
deriving DecidableEq, Repr

namespace SmartNode

/-- `constexpr SmartNode( std::nullptr_t = nullptr )`: the sentinel state. -/
def nullCtor : SmartNode :=
  { mReferenceId := kInvalidReferenceId, mPtr := none }

/-- `static void TryInc( size_t id )`: calls `IncReference( id )` iff `id` is
not the sentinel.  Returned as the list of registry calls issued. -/
def TryInc (id : Nat) : List RegistryOp :=
  if id ≠ kInvalidReferenceId then [.IncReference id] else []

/-- `SmartNode( const SmartNode& node )`: `TryInc( node.mReferenceId )`, then
adopt identifier and pointer.  Result: the new handle and the registry calls
in issue order. -/
def copyCtor (node : SmartNode) : SmartNode × List RegistryOp :=
  ({ mReferenceId := node.mReferenceId, mPtr := node.mPtr },
   TryInc node.mReferenceId)

/-- `template<typename U> SmartNode( const SmartNode<U>& node )`: same body as
the non-template copy constructor; the pointer is implicitly converted. -/
def convCopyCtor (node : SmartNode) : SmartNode × List RegistryOp :=
  ({ mReferenceId := node.mReferenceId, mPtr := node.mPtr },
   TryInc node.mReferenceId)

/-- `template<typename U> SmartNode( const SmartNode<U>& node, T* ptr )`:
the aliasing constructor; `assert( ptr )` makes the pointer argument non-null,
so it is a bare `Nat` address here. -/
def aliasCtor (node : SmartNode) (ptr : Nat) : SmartNode × List RegistryOp :=
  ({ mReferenceId := node.mReferenceId, mPtr := some ptr },
   TryInc node.mReferenceId)

/-- `SmartNode( SmartNode&& node )`: steal identifier and pointer, reset the
source to the sentinel state.  Result: (new handle, moved-from source) and the
(empty) list of registry calls. -/
def moveCtor (node : SmartNode) : (SmartNode × SmartNode) × List RegistryOp :=
  (({ mReferenceId := node.mReferenceId, mPtr := node.mPtr },
    { mReferenceId := kInvalidReferenceId, mPtr := none }),
   [])

/-- `template<typename U> SmartNode( SmartNode<U>&& node )`: same body as the
non-template move constructor. -/
def convMoveCtor (node : SmartNode) : (SmartNode × SmartNode) × List RegistryOp :=
  (({ mReferenceId := node.mReferenceId, mPtr := node.mPtr },
    { mReferenceId := kInvalidReferenceId, mPtr := none }),
   [])

/-- `void Release()` of a `SmartNode<T>`: if the identifier is not the
sentinel, call `DecReference( mReferenceId, const_cast<U*>( mPtr ), λ )` with
`U = std::remove_const<T>::type` and the destructor lambda; then reset to the
sentinel state.  Result: the handle state after and the registry calls. -/
def Release (T : CppType) (h : SmartNode) : SmartNode × List RegistryOp :=
  ({ mReferenceId := kInvalidReferenceId, mPtr := none },
   if h.mReferenceId ≠ kInvalidReferenceId then
     [.DecReference h.mReferenceId h.mPtr
        { castTo := remove_const T, dtorOf := T }]
   else [])

/-- `~SmartNode()`: calls `Release()`.  The registry calls issued when a
handle of static type `T` is destroyed. -/
def dtor (T : CppType) (h : SmartNode) : List RegistryOp :=
  (Release T h).2

/-- `void swap( SmartNode& node )`: `std::swap` of both members.  Result:
(this, node) after the call. -/
def swapNodes (a b : SmartNode) : SmartNode × SmartNode :=
  ({ mReferenceId := b.mReferenceId, mPtr := b.mPtr },
   { mReferenceId := a.mReferenceId, mPtr := a.mPtr })

/-- `SmartNode& operator=( SmartNode&& node )`: `swap( node )`.  Result:
(this, node) after, and the (empty) list of registry calls. -/
def moveAssign (dst src : SmartNode) : (SmartNode × SmartNode) × List RegistryOp :=
  (swapNodes dst src, [])

/-- `template<typename U> SmartNode& operator=( SmartNode<U>&& node )` on a
`SmartNode<T>`: if the identifiers are equal, only re-point; otherwise
`Release()` this, adopt the source's state and reset the source to sentinel.
Result: (this, node) after, and the registry calls. -/
def convMoveAssign (T : CppType) (dst src : SmartNode) :
    (SmartNode × SmartNode) × List RegistryOp :=
  if dst.mReferenceId = src.mReferenceId then
    (({ mReferenceId := dst.mReferenceId, mPtr := src.mPtr }, src), [])
  else
    (({ mReferenceId := src.mReferenceId, mPtr := src.mPtr },
      { mReferenceId := kInvalidReferenceId, mPtr := none }),
     (Release T dst).2)

/-- `SmartNode& operator=( const SmartNode& node )` on a `SmartNode<T>`: if
the identifiers differ, `TryInc` the source's identifier, `Release()` this and
adopt the source's identifier; in all cases re-point `mPtr`. -/
def copyAssign (T : CppType) (dst src : SmartNode) :
    SmartNode × List RegistryOp :=
  if dst.mReferenceId ≠ src.mReferenceId then
    ({ mReferenceId := src.mReferenceId, mPtr := src.mPtr },
     TryInc src.mReferenceId ++ (Release T dst).2)
  else
    ({ mReferenceId := dst.mReferenceId, mPtr := src.mPtr }, [])

/-- `template<typename U> SmartNode& operator=( const SmartNode<U>& node )`:
same body as the non-template copy assignment. -/
def convCopyAssign (T : CppType) (dst src : SmartNode) :
    SmartNode × List RegistryOp :=
  if dst.mReferenceId ≠ src.mReferenceId then
    ({ mReferenceId := src.mReferenceId, mPtr := src.mPtr },
     TryInc src.mReferenceId ++ (Release T dst).2)
  else
    ({ mReferenceId := dst.mReferenceId, mPtr := src.mPtr }, [])

/-- `T* get() const`: the raw pointer. -/
def get (h : SmartNode) : Option Nat :=
  h.mPtr

/-- `operator bool() const`: `mPtr` as a boolean test. -/
def boolOp (h : SmartNode) : Bool :=
  h.get ≠ none

/-- `operator==( const SmartNode& lhs, const SmartNode<U>& rhs )`:
`lhs.get() == rhs.get()`. -/
def eqOp (lhs rhs : SmartNode) : Bool :=
  lhs.get = rhs.get

/-- `operator!=( const SmartNode& lhs, const SmartNode<U>& rhs )`:
`lhs.get() != rhs.get()`. -/
def neOp (lhs rhs : SmartNode) : Bool :=
  lhs.get ≠ rhs.get

/-- `long use_count() const`: 0 if the identifier is the sentinel, otherwise
`SmartNodeManager::ReferenceCount( mReferenceId )`. -/
def use_count (c : RegCounts) (h : SmartNode) : Nat :=
  if h.mReferenceId = kInvalidReferenceId then 0
  else ReferenceCount c h.mReferenceId

/-- `bool unique() const`: `use_count() == 1`. -/
def unique (c : RegCounts) (h : SmartNode) : Bool :=
  use_count c h = 1

/-- `explicit SmartNode( T* ptr )` (the private raw-pointer constructor):
`mReferenceId = SmartNodeManager::GetLastAllocID( ptr )`, then
`SmartNodeManager::IncReference( mReferenceId )` unconditionally.  The
registry's `GetLastAllocID` implementation is not in the header, so it is
passed as a function `g`.  Overload resolution sends any argument of static
type `T*` here, including a null one. -/
def rawCtor (g : Option Nat → Nat) (ptr : Option Nat) :
    SmartNode × List RegistryOp :=
  ({ mReferenceId := g ptr, mPtr := ptr },
   [.GetLastAllocID ptr, .IncReference (g ptr)])

/-- `void reset( T* ptr = nullptr )`: `*this = SmartNode( ptr )`.  The
temporary is built by the private raw-pointer constructor, move-assigned into
`*this` (a swap), and destroyed at the end of the statement, releasing the old
state of `*this`. -/
def reset (T : CppType) (g : Option Nat → Nat) (h : SmartNode)
    (ptr : Option Nat) : SmartNode × List RegistryOp :=
  let ctorRes := rawCtor g ptr
  let swapped := swapNodes h ctorRes.1
  (swapped.1, ctorRes.2 ++ (Release T swapped.2).2)

/-- The handle invariant claimed by the spec:
`identifier == sentinel ⇔ pointer == null`. -/
def inv (h : SmartNode) : Prop :=
  h.mReferenceId = kInvalidReferenceId ↔ h.mPtr = none

instance (h : SmartNode) : Decidable (inv h) := by
  unfold inv; infer_instance

end SmartNode

open SmartNode

/-- Unfolding of the invariant on an explicit handle. -/
lemma inv_mk (i : Nat) (p : Option Nat) :
    SmartNode.inv { mReferenceId := i, mPtr := p } ↔
      (i = kInvalidReferenceId ↔ p = none) :=
  Iff.rfl

/-- C1 (counterexample): the claim fails as stated.  The null handle is
producible by the public null constructor and satisfies the invariant, yet the
public aliasing converting constructor applied to it with the (non-null)
pointer 1 — which passes the `assert( ptr )` — yields a handle whose
identifier is the sentinel while its stored pointer is non-null. -/
theorem C1_counterexample :
    SmartNode.inv SmartNode.nullCtor ∧
    ¬ SmartNode.inv (SmartNode.aliasCtor SmartNode.nullCtor 1).1 := by
  decide

/-- C1 (amended): handles produced by the null constructor, the copy /
converting-copy / move / converting-move constructors, the copy / move /
converting assignments and `Release`, from handles satisfying
`identifier == sentinel ⇔ pointer == null`, satisfy it again; the aliasing
converting constructor preserves it if and only if its source handle is
non-sentinel. -/
theorem C1_invariant_amended (T : CppType) (h h₂ : SmartNode) (p : Nat)
    (hh : h.inv) (hh₂ : h₂.inv) :
    SmartNode.inv SmartNode.nullCtor
    ∧ SmartNode.inv (SmartNode.copyCtor h).1
    ∧ SmartNode.inv (SmartNode.convCopyCtor h).1
    ∧ SmartNode.inv (SmartNode.moveCtor h).1.1
    ∧ SmartNode.inv (SmartNode.moveCtor h).1.2
    ∧ SmartNode.inv (SmartNode.convMoveCtor h).1.1
    ∧ SmartNode.inv (SmartNode.convMoveCtor h).1.2
    ∧ SmartNode.inv (SmartNode.copyAssign T h h₂).1
    ∧ SmartNode.inv (SmartNode.convCopyAssign T h h₂).1
    ∧ SmartNode.inv (SmartNode.moveAssign h h₂).1.1
    ∧ SmartNode.inv (SmartNode.moveAssign h h₂).1.2
    ∧ SmartNode.inv (SmartNode.convMoveAssign T h h₂).1.1
    ∧ SmartNode.inv (SmartNode.convMoveAssign T h h₂).1.2
    ∧ SmartNode.inv (SmartNode.Release T h).1
    ∧ (SmartNode.inv (SmartNode.aliasCtor h₂ p).1 ↔
        h₂.mReferenceId ≠ kInvalidReferenceId) := by
  obtain ⟨i, q⟩ := h
  obtain ⟨j, r⟩ := h₂
  rw [inv_mk] at hh
  rw [inv_mk] at hh₂
  simp only [SmartNode.nullCtor, SmartNode.copyCtor, SmartNode.convCopyCtor,
    SmartNode.moveCtor, SmartNode.convMoveCtor, SmartNode.copyAssign,
    SmartNode.convCopyAssign, SmartNode.moveAssign, SmartNode.swapNodes,
    SmartNode.convMoveAssign, SmartNode.Release, SmartNode.aliasCtor,
    SmartNode.TryInc]
  split_ifs with h1 h2 h3 <;> simp_all [inv_mk]

/-- C1 (witness): the amended preservation statement at concrete handles:
a valid source handle with identifier 2 and address 5, a valid destination
with identifier 3 and address 9, and aliasing pointer 4. -/
theorem C1_invariant_amended_witness :
    SmartNode.inv (SmartNode.copyAssign .Generator
      { mReferenceId := 3, mPtr := some 9 }
      { mReferenceId := 2, mPtr := some 5 }).1 := by
  have h := C1_invariant_amended .Generator
    { mReferenceId := 3, mPtr := some 9 }
    { mReferenceId := 2, mPtr := some 5 } 4
    (by decide) (by decide)
  exact h.2.2.2.2.2.2.2.1

/-- C2: copy construction from a non-sentinel handle issues exactly the
increment of the source's identifier as its registry interaction and adopts
the source's identifier and pointer; copy assignment (plain and converting)
with differing identifiers and a non-sentinel source issues the increment of
the source's identifier strictly before the calls of `Release` (which
decrement only the old identifier); copy assignment with an equal identifier
issues no registry calls and only re-points the pointer. -/
theorem C2_copy_increment_order (T : CppType) (dst src : SmartNode) :
    (src.mReferenceId ≠ kInvalidReferenceId →
      SmartNode.copyCtor src =
        ({ mReferenceId := src.mReferenceId, mPtr := src.mPtr },
         [.IncReference src.mReferenceId]) ∧
      SmartNode.convCopyCtor src =
        ({ mReferenceId := src.mReferenceId, mPtr := src.mPtr },
         [.IncReference src.mReferenceId]))
    ∧ (dst.mReferenceId ≠ src.mReferenceId →
       src.mReferenceId ≠ kInvalidReferenceId →
        SmartNode.copyAssign T dst src =
          ({ mReferenceId := src.mReferenceId, mPtr := src.mPtr },
           .IncReference src.mReferenceId :: (SmartNode.Release T dst).2) ∧
        SmartNode.convCopyAssign T dst src =
          ({ mReferenceId := src.mReferenceId, mPtr := src.mPtr },
           .IncReference src.mReferenceId :: (SmartNode.Release T dst).2))
    ∧ (dst.mReferenceId ≠ kInvalidReferenceId →
        (SmartNode.Release T dst).2 =
          [.DecReference dst.mReferenceId dst.mPtr
            { castTo := remove_const T, dtorOf := T }])
    ∧ (dst.mReferenceId = src.mReferenceId →
        SmartNode.copyAssign T dst src =
          ({ mReferenceId := dst.mReferenceId, mPtr := src.mPtr }, []) ∧
        SmartNode.convCopyAssign T dst src =
          ({ mReferenceId := dst.mReferenceId, mPtr := src.mPtr }, [])) := by
  refine ⟨fun hs => ?_, fun hne hs => ?_, fun hd => ?_, fun heq => ?_⟩
  · simp [SmartNode.copyCtor, SmartNode.convCopyCtor, SmartNode.TryInc, hs]
  · simp [SmartNode.copyAssign, SmartNode.convCopyAssign, SmartNode.TryInc,
      hne, hs]
  · simp [SmartNode.Release, hd]
  · simp [SmartNode.copyAssign, SmartNode.convCopyAssign, heq]

/-- C2 (witness): at identifiers 1 (destination, pointer 10) and 2 (source,
pointer 20): the assignment's registry calls are the increment of 2 followed
by the decrement of 1, and the destination adopts the source's state. -/
theorem C2_copy_increment_order_witness :
    SmartNode.copyAssign .Generator
      { mReferenceId := 1, mPtr := some 10 }
      { mReferenceId := 2, mPtr := some 20 } =
    ({ mReferenceId := 2, mPtr := some 20 },
     [.IncReference 2,
      .DecReference 1 (some 10) { castTo := .Generator, dtorOf := .Generator }]) := by
  have h := C2_copy_increment_order .Generator
    { mReferenceId := 1, mPtr := some 10 }
    { mReferenceId := 2, mPtr := some 20 }
  refine ((h.2.1 (by decide) (by decide)).1).trans ?_
  rw [h.2.2.1 (by decide)]
  rfl

/-- C3: destroying a `SmartNode<T>` handle issues no registry call when the
identifier is the sentinel, and exactly one `DecReference` call otherwise,
carrying the stored identifier, the stored address, and a destructor that
casts to `std::remove_const<T>::type` and runs `T`'s destructor; in both
cases the cumulative effect on the reference counts is that of exactly one
registry `Decrement` of the handle's identifier, which is a no-op on the
sentinel. -/
theorem C3_destruction_decrement (T : CppType) (h : SmartNode) (c : RegCounts) :
    (h.mReferenceId = kInvalidReferenceId →
       SmartNode.dtor T h = [] ∧ applyTrace c (SmartNode.dtor T h) = c)
    ∧ (h.mReferenceId ≠ kInvalidReferenceId →
       SmartNode.dtor T h =
         [.DecReference h.mReferenceId h.mPtr
            { castTo := remove_const T, dtorOf := T }])
    ∧ applyTrace c (SmartNode.dtor T h) =
        applyOp c (.DecReference h.mReferenceId h.mPtr
          { castTo := remove_const T, dtorOf := T }) := by
  by_cases hs : h.mReferenceId = kInvalidReferenceId
  · refine ⟨fun _ => ⟨?_, ?_⟩, fun hn => absurd hs hn, ?_⟩ <;>
      simp [SmartNode.dtor, SmartNode.Release, applyTrace, applyOp, hs]
  · refine ⟨fun he => absurd he hs, fun _ => ?_, ?_⟩ <;>
      simp [SmartNode.dtor, SmartNode.Release, applyTrace, applyOp, hs]

/-- C3 (witness): destroying a handle of type `const Derived3` with
identifier 2 and address 5 issues one decrement whose destructor casts to
`Derived3` (const removed) and runs the destructor of `const Derived3`. -/
theorem C3_destruction_decrement_witness :
    SmartNode.dtor (.constOf (.derived 3)) { mReferenceId := 2, mPtr := some 5 } =
      [.DecReference 2 (some 5)
        { castTo := .derived 3, dtorOf := .constOf (.derived 3) }] := by
  have h := C3_destruction_decrement (.constOf (.derived 3))
    { mReferenceId := 2, mPtr := some 5 } (fun _ => 0)
  exact h.2.1 (by decide)

/-- C4 (counterexample): the converting move assignment is not observably a
state exchange.  With destination (identifier 1, pointer 10) and source
(identifier 2, pointer 20), the moved-from handle is left in the sentinel
state instead of holding the destination's previous (identifier 1, pointer
10), and the assignment itself issues a registry call (the decrement of the
previous referent is not deferred to the moved-from handle's destruction). -/
theorem C4_counterexample :
    (SmartNode.convMoveAssign .Generator
        { mReferenceId := 1, mPtr := some 10 }
        { mReferenceId := 2, mPtr := some 20 }).1.2 ≠
      (SmartNode.swapNodes
        { mReferenceId := 1, mPtr := some 10 }
        { mReferenceId := 2, mPtr := some 20 }).2
    ∧ (SmartNode.convMoveAssign .Generator
        { mReferenceId := 1, mPtr := some 10 }
        { mReferenceId := 2, mPtr := some 20 }).2 ≠ [] := by
  decide

/-- C4 (amended): same-type move assignment is exactly the state exchange of
the two handles with no registry calls; converting move assignment gives the
destination the source's (identifier, pointer) state — the same destination
state a swap would give — and the registry calls of the assignment followed
by the moved-from handle's destruction have the same cumulative effect on the
reference counts as a swap followed by the moved-from handle's normal
destruction; but the moved-from handle's own state after a converting move
assignment differs from the exchanged state. -/
theorem C4_move_assign_swap_amended (T U : CppType) (dst src : SmartNode)
    (c : RegCounts) :
    SmartNode.moveAssign dst src = (SmartNode.swapNodes dst src, [])
    ∧ (SmartNode.convMoveAssign T dst src).1.1 =
        { mReferenceId := src.mReferenceId, mPtr := src.mPtr }
    ∧ applyTrace c ((SmartNode.convMoveAssign T dst src).2 ++
        SmartNode.dtor U (SmartNode.convMoveAssign T dst src).1.2) =
      applyTrace c (SmartNode.dtor U (SmartNode.swapNodes dst src).2) := by
  refine ⟨rfl, ?_, ?_⟩
  · by_cases hid : dst.mReferenceId = src.mReferenceId <;>
      simp [SmartNode.convMoveAssign, hid]
  · by_cases hid : dst.mReferenceId = src.mReferenceId <;>
      by_cases hs : src.mReferenceId = kInvalidReferenceId <;>
      by_cases hd : dst.mReferenceId = kInvalidReferenceId <;>
      simp_all [SmartNode.convMoveAssign, SmartNode.dtor, SmartNode.Release,
        SmartNode.swapNodes, applyTrace, applyOp]

/-- C5: move construction (same-type and converting) hands the new handle
exactly the source's identifier and pointer, leaves the source in the
sentinel state (invalid identifier, null pointer), and issues no registry
call, so the reference counts are unchanged. -/
theorem C5_move_ctor_frame (h : SmartNode) (c : RegCounts) :
    (SmartNode.moveCtor h).1.1 = h
    ∧ (SmartNode.moveCtor h).1.2 = SmartNode.nullCtor
    ∧ (SmartNode.moveCtor h).2 = []
    ∧ (SmartNode.convMoveCtor h).1.1 = h
    ∧ (SmartNode.convMoveCtor h).1.2 = SmartNode.nullCtor
    ∧ (SmartNode.convMoveCtor h).2 = []
    ∧ applyTrace c (SmartNode.moveCtor h).2 = c
    ∧ applyTrace c (SmartNode.convMoveCtor h).2 = c
    ∧ SmartNode.use_count c (SmartNode.moveCtor h).1.1 =
        SmartNode.use_count c h := by
  obtain ⟨i, p⟩ := h
  simp [SmartNode.moveCtor, SmartNode.convMoveCtor, SmartNode.nullCtor,
    applyTrace]

/-- C6: self-assignment `h = h` takes the equal-identifier branch: it returns
`h` itself (same identifier and pointer), issues no registry call, leaves the
reference counts untouched and `use_count()` unchanged. -/
theorem C6_self_assignment (T : CppType) (h : SmartNode) (c : RegCounts) :
    SmartNode.copyAssign T h h = (h, [])
    ∧ SmartNode.convCopyAssign T h h = (h, [])
    ∧ applyTrace c (SmartNode.copyAssign T h h).2 = c
    ∧ SmartNode.use_count (applyTrace c (SmartNode.copyAssign T h h).2)
        (SmartNode.copyAssign T h h).1 = SmartNode.use_count c h := by
  obtain ⟨i, p⟩ := h
  simp [SmartNode.copyAssign, SmartNode.convCopyAssign, applyTrace]

/-- C7: `operator==` on handles returns true exactly when the raw pointers
`get()` are equal and `operator!=` is its boolean negation; two handles with
the same stored pointer (regardless of identifier, hence of static type)
compare equal, and a handle holding a non-null pointer compares unequal to
the null handle. -/
theorem C7_equality (a b : SmartNode) (p : Nat) :
    (SmartNode.eqOp a b = true ↔ a.get = b.get)
    ∧ SmartNode.neOp a b = !SmartNode.eqOp a b
    ∧ (a.mPtr = b.mPtr → SmartNode.eqOp a b = true)
    ∧ (a.mPtr = some p →
        SmartNode.eqOp a SmartNode.nullCtor = false ∧
        SmartNode.neOp a SmartNode.nullCtor = true) := by
  refine ⟨by simp [SmartNode.eqOp], by simp [SmartNode.eqOp, SmartNode.neOp],
    fun hp => by simp [SmartNode.eqOp, SmartNode.get, hp],
    fun hp => by simp [SmartNode.eqOp, SmartNode.neOp, SmartNode.get,
      SmartNode.nullCtor, hp]⟩

/-- C7 (witness): the handles (identifier 5, pointer 7) and (identifier 6,
pointer 7) — same underlying object through different identifiers — compare
equal, and the first compares unequal to the null handle. -/
theorem C7_equality_witness :
    SmartNode.eqOp { mReferenceId := 5, mPtr := some 7 }
      { mReferenceId := 6, mPtr := some 7 } = true ∧
    SmartNode.eqOp { mReferenceId := 5, mPtr := some 7 }
      SmartNode.nullCtor = false := by
  have h := C7_equality { mReferenceId := 5, mPtr := some 7 }
    { mReferenceId := 6, mPtr := some 7 } 7
  exact ⟨h.2.2.1 (by decide), (h.2.2.2 (by decide)).1⟩

/-- C8: `use_count()` is 0 when the identifier is the sentinel and otherwise
the registry's `ReferenceCount` at the identifier, and `unique()` is true
exactly when `use_count()` is 1. -/
theorem C8_use_count_unique (c : RegCounts) (h : SmartNode) :
    (h.mReferenceId = kInvalidReferenceId → SmartNode.use_count c h = 0)
    ∧ (h.mReferenceId ≠ kInvalidReferenceId →
        SmartNode.use_count c h = ReferenceCount c h.mReferenceId)
    ∧ (SmartNode.unique c h = true ↔ SmartNode.use_count c h = 1) := by
  refine ⟨fun hs => by simp [SmartNode.use_count, hs],
    fun hs => by simp [SmartNode.use_count, hs],
    by simp [SmartNode.unique]⟩

/-- C8 (witness): with all counts equal to 3, the handle (identifier 2,
pointer 5) reports the registry's count and is not unique. -/
theorem C8_use_count_unique_witness :
    SmartNode.use_count (fun _ => 3) { mReferenceId := 2, mPtr := some 5 } =
      ReferenceCount (fun _ => 3) 2 ∧
    (SmartNode.unique (fun _ => 3) { mReferenceId := 2, mPtr := some 5 } = true ↔
      SmartNode.use_count (fun _ => 3) { mReferenceId := 2, mPtr := some 5 } = 1) := by
  have h := C8_use_count_unique (fun _ => 3) { mReferenceId := 2, mPtr := some 5 }
  exact ⟨h.2.1 (by decide), h.2.2⟩

/-- C10: `reset()` with a null argument does not take the null-handle path:
it builds the temporary through the private raw-pointer constructor, whose
registry calls — `GetLastAllocID( nullptr )` followed by `IncReference` on
the returned identifier — head the call sequence (followed by the release of
the handle's previous state), so the registry is always touched, and the
resulting identifier is whatever `GetLastAllocID( nullptr )` returned. -/
theorem C10_reset_null_registry_path (T : CppType) (g : Option Nat → Nat)
    (h : SmartNode) :
    SmartNode.reset T g h none =
      ({ mReferenceId := g none, mPtr := none },
       .GetLastAllocID none :: .IncReference (g none) ::
         (SmartNode.Release T h).2)
    ∧ (SmartNode.reset T g h none).2 ≠ [] := by
  constructor <;>
    simp [SmartNode.reset, SmartNode.rawCtor, SmartNode.swapNodes]

end FastNoise
